import Mathlib

/-
Verification of the rpi_bt WiFi-credential acquisition scripts.

Strings from the Python source are modelled as lists of characters
(`List Char`); Python dicts built by repeated assignment are modelled as
association lists where the *last* binding wins on lookup.  Each
definition below is a shallow embedding of the correspondingly named
Python function; external commands (wpa_cli, iwconfig, ...) are modelled
by explicit oracle parameters giving their outcome and duration.
-/

namespace RpiBt

/-- Characters stripped by Python str.strip (whitespace). -/
def isPySpace (c : Char) : Bool :=
  c = ' ' || c = '\t' || c = '\n' || c = '\x0d' || c = '\x0b' || c = '\x0c'

/-- Python str.strip: remove leading and trailing whitespace. -/
def pyStrip (s : List Char) : List Char :=
  ((s.dropWhile isPySpace).reverse.dropWhile isPySpace).reverse

/-- Python line.split(sep=chr, maxsplit=1) when the separator occurs:
returns the text before the first occurrence and the text after it;
none when the separator does not occur (Python: sep not in line). -/
def splitFirst (sep : Char) : List Char → Option (List Char × List Char)
  | [] => none
  | c :: cs =>
    if c = sep then some ([], cs)
    else
      match splitFirst sep cs with
      | some (k, v) => some (c :: k, v)
      | none => none

/-- Python text.split(sep=chr) (full split, no maxsplit). -/
def splitAll (sep : Char) : List Char → List (List Char)
  | [] => [[]]
  | c :: cs =>
    if c = sep then [] :: splitAll sep cs
    else
      match splitAll sep cs with
      | [] => [[c]]
      | l :: ls => (c :: l) :: ls

/-- A Python dict of strings, as the sequence of assignments performed. -/
abbrev PyDict := List (List Char × List Char)

/-- Python d[k] = v. -/
def dictSet (d : PyDict) (k v : List Char) : PyDict := d ++ [(k, v)]

/-- Python d.get(k): the value of the last assignment to k, if any. -/
def dictGet (d : PyDict) (k : List Char) : Option (List Char) :=
  (d.reverse.find? (fun kv => kv.1 == k)).map (fun kv => kv.2)

/-- Python d.get(k, dflt). -/
def dictGetD (d : PyDict) (k dflt : List Char) : List Char :=
  (dictGet d k).getD dflt

/-- Python k in d. -/
def hasKey (d : PyDict) (k : List Char) : Bool :=
  (dictGet d k).isSome

/-- Python substring test (needle in hay). -/
def hasSub (needle : List Char) : List Char → Bool
  | [] => needle.isEmpty
  | c :: t => List.isPrefixOf needle (c :: t) || hasSub needle t

/-- The key=value parse loop shared by extract_android_network_credentials
(android_wifi_direct_sharer.py lines 725-731) and
extract_network_credentials (wifi_direct_sharer.py lines 621-627):
for each line, if '=' occurs, split at the first '=' and assign
network_info[key.strip()] = value.strip(); otherwise skip the line. -/
def parseStatusLines (lines : List (List Char)) : PyDict :=
  lines.foldl
    (fun network_info line =>
      match splitFirst '=' line with
      | some (key, value) => dictSet network_info (pyStrip key) (pyStrip value)
      | none => network_info)
    []

/-- android_wifi_direct_sharer.py extract_android_network_credentials,
lines 721-750, modelled up to the decision to persist.  The function
splits the status text into lines, builds network_info, and persists
(json.dump of ssid/password) exactly when the guard chain
if 'ssid' in network_info or 'psk' in network_info, then
if ssid != 'Unknown' and password != 'Unknown' succeeds, where
ssid = network_info.get('ssid', 'Unknown') and
password = network_info.get('psk', 'Unknown').  Returns whether the
credential is accepted and persisted. -/
def extract_android_network_credentials (status : List Char) : Bool :=
  let network_info := parseStatusLines (splitAll '\n' status)
  if hasKey network_info ("ssid".data) || hasKey network_info ("psk".data) then
    let ssid := dictGetD network_info ("ssid".data) ("Unknown".data)
    let password := dictGetD network_info ("psk".data) ("Unknown".data)
    decide (ssid ≠ ("Unknown".data)) && decide (password ≠ ("Unknown".data))
  else false

/-- auto_bluetooth_wifi_sharer.py check_credentials, lines 414-442: the
acceptance guard on the GATT-written fields, Python truthiness of a string
being non-emptiness:
wifi_ssid and wifi_ssid != "Unknown" and wifi_password and
wifi_password != "Unknown". -/
def check_credentials (wifi_ssid wifi_password : List Char) : Bool :=
  decide (wifi_ssid ≠ []) && decide (wifi_ssid ≠ ("Unknown".data)) &&
  decide (wifi_password ≠ []) && decide (wifi_password ≠ ("Unknown".data))

/-- Python line.split(sep, 1)[1] under the guard that sep occurs (the
peer-list parser only evaluates it on lines that start with key=). -/
def splitEqVal (line : List Char) : List Char :=
  match splitFirst '=' line with
  | some (_, v) => v
  | none => []

/-- The record-closing guard of parse_android_devices: the in-progress
device is appended exactly when it is a non-empty dict that contains an
'address' key (Python: if current_device and 'address' in
current_device: devices.append(current_device)); this guard appears both
when a new dev_addr= line closes the previous record and at the final
flush. -/
def flushDevices (devices : List PyDict) (current_device : PyDict) :
    List PyDict :=
  if !current_device.isEmpty && hasKey current_device ("address".data) then
    devices ++ [current_device]
  else devices

/-- One iteration of the line loop of parse_android_devices
(android_wifi_direct_sharer.py lines 434-447).  State: the devices
accumulated so far and the current in-progress device dict.  A line
starting with dev_addr= first appends the current device when it is a
non-empty dict containing 'address', then starts a fresh device holding
the address (line.split('=', 1)[1]); the other recognised key prefixes
assign the corresponding field of the current device; any other line is
ignored. -/
def parse_android_devices_step (st : List PyDict × PyDict) (rawLine : List Char) :
    List PyDict × PyDict :=
  let line := pyStrip rawLine
  let devices := st.1
  let current_device := st.2
  let val := splitEqVal line
  if List.isPrefixOf ("dev_addr=".data) line then
    (flushDevices devices current_device, [(("address".data), val)])
  else if List.isPrefixOf ("dev_name=".data) line then
    (devices, dictSet current_device ("name".data) val)
  else if List.isPrefixOf ("p2p_dev_addr=".data) line then
    (devices, dictSet current_device ("p2p_address".data) val)
  else if List.isPrefixOf ("p2p_go_intent=".data) line then
    (devices, dictSet current_device ("go_intent".data) val)
  else if List.isPrefixOf ("p2p_dev_capab=".data) line then
    (devices, dictSet current_device ("capabilities".data) val)
  else (devices, current_device)

/-- The loop plus final flush of parse_android_devices (lines 431-451),
taking the already-split lines. -/
def parse_android_devices_lines (lines : List (List Char)) : List PyDict :=
  let st := lines.foldl parse_android_devices_step ([], [])
  flushDevices st.1 st.2

/-- android_wifi_direct_sharer.py parse_android_devices, lines 427-461:
lines = peers_output.strip().split('\n'), then the grouping loop and the
final flush of the last in-progress device. -/
def parse_android_devices (peers_output : List Char) : List PyDict :=
  parse_android_devices_lines (splitAll '\n' (pyStrip peers_output))

/-- android_wifi_direct_sharer.py check_android_wifi_direct_connection,
lines 544-569: wpa_cli status output is established when it contains
p2p_go_mode=1 or p2p_client_mode=1; every other branch (including the
elif for other p2p activity) returns False.  A failed status command
(exception path) also yields False, modelled by the caller passing the
empty status. -/
def check_android_wifi_direct_connection (status : List Char) : Bool :=
  if hasSub ("p2p_go_mode=1".data) status ||
     hasSub ("p2p_client_mode=1".data) status then true
  else false

/-- The polling loop of connect_to_android_via_wifi_direct (lines
479-487): for i in range(45): sleep 1; if the status at second i is
established, stop.  Returns the index of the first established poll,
none when the bound is exhausted.  statusAt i is the wpa_cli status
text observed by the poll of iteration i. -/
def pollAux (statusAt : Nat → List Char) (i : Nat) : Nat → Option Nat
  | 0 => none
  | fuel + 1 =>
    if check_android_wifi_direct_connection (statusAt i) then some i
    else pollAux statusAt (i + 1) fuel

/-- The bounded 45-iteration poll of connect_to_android_via_wifi_direct. -/
def pollConnection (statusAt : Nat → List Char) : Option Nat :=
  pollAux statusAt 0 45

/-- android_wifi_direct_sharer.py connect_to_android_via_wifi_direct,
lines 463-497: run p2p_connect addr pbc (check=True, so a failing
command raises and the except branch returns False); on success poll up
to 45 times; the first established poll returns
extract_credentials_from_android_wifi_direct() (outcome extractOk);
exhausting the bound returns False. -/
def connect_to_android_via_wifi_direct (connectCmdOk : Bool)
    (statusAt : Nat → List Char) (extractOk : Bool) : Bool :=
  if connectCmdOk then
    match pollConnection statusAt with
    | some _ => extractOk
    | none => false
  else false

/-- Oracle environment for extract_wifi_credentials_from_android
(android_wifi_direct_sharer.py lines 349-425).  External commands are
modelled by their outcome; time is in whole seconds relative to
start_time.  findDur is the time the p2p_find command takes (its own
timeout bounds it at 10); attemptDur i and attemptOk i are the duration
and outcome of the i-th per-peer connect attempt (the call of
connect_to_android_via_wifi_direct); the quick textual queries
(p2p_peers) are modelled as instantaneous. -/
structure ExtractEnv where
  findOk : Bool
  findDur : Nat
  peersCmdOk : Bool
  peersNonempty : Bool
  numPeers : Nat
  attemptDur : Nat → Nat
  attemptOk : Nat → Bool
  methodsOk : Bool

/-- The Step-3 loop of extract_wifi_credentials_from_android (lines
388-404): for each discovered device, first check
time.time() - start_time > timeout_seconds (90) and return False when
exceeded; otherwise run the per-peer connect attempt, returning True on
the first success and moving to the next device on failure.  Returns
(early return if any, attempts started as (index, elapsed at start),
elapsed after the loop). -/
def tryPeers (env : ExtractEnv) :
    List Nat → Nat → Option Bool × List (Nat × Nat) × Nat
  | [], elapsed => (none, [], elapsed)
  | i :: rest, elapsed =>
    if 90 < elapsed then (some false, [], elapsed)
    else
      let elapsed' := elapsed + env.attemptDur i
      if env.attemptOk i then (some true, [(i, elapsed)], elapsed')
      else
        let r := tryPeers env rest elapsed'
        (r.1, (i, elapsed) :: r.2.1, r.2.2)

/-- android_wifi_direct_sharer.py extract_wifi_credentials_from_android,
lines 349-425, with the 90-second global deadline.  Step 1: p2p_find
(failure returns False) then sleep(15) and a deadline check.  Step 2:
p2p_peers (a raising command returns False through the outer except);
when its output is non-empty the Step-3 per-peer loop runs.  Step 4:
a final deadline check, then try_android_specific_methods.  Returns the
result together with the list of per-peer attempts started, each with
the elapsed time at which it started. -/
def extract_wifi_credentials_from_android (env : ExtractEnv) :
    Bool × List (Nat × Nat) :=
  if !env.findOk then (false, [])
  else
    let elapsed1 := env.findDur + 15
    if 90 < elapsed1 then (false, [])
    else if !env.peersCmdOk then (false, [])
    else
      let loopOut :=
        if env.peersNonempty then tryPeers env (List.range env.numPeers) elapsed1
        else (none, [], elapsed1)
      match loopOut.1 with
      | some r => (r, loopOut.2.1)
      | none =>
        if 90 < loopOut.2.2 then (false, loopOut.2.1)
        else (env.methodsOk, loopOut.2.1)

/-- Poll statuses for the C3 run: every poll of every peer reports an
established WiFi Direct connection (p2p_go_mode=1). -/
def c3StatusAt (i : Nat) : Nat → List Char :=
  fun _ => ("p2p_go_mode=1").data

/-- Extraction outcomes for the C3 run: credential extraction over the
established connection fails for peer 0 and succeeds for peer 1. -/
def c3ExtractOk (i : Nat) : Bool := i == 1

/-- The C3 environment: two discovered peers whose per-peer attempts
are connect_to_android_via_wifi_direct runs with accepted connect
commands, the poll statuses of c3StatusAt and the extraction outcomes
of c3ExtractOk. -/
def c3Env : ExtractEnv :=
  { findOk := true, findDur := 0, peersCmdOk := true,
    peersNonempty := true, numPeers := 2, attemptDur := fun _ => 3,
    attemptOk := fun i =>
      connect_to_android_via_wifi_direct true (c3StatusAt i) (c3ExtractOk i),
    methodsOk := false }

/-- State shared by the Bluetooth callback handlers of
android_wifi_direct_sharer.py: the connected_devices set and the
persisted-credential flag, plus ghost counters recording how many times
credential extraction was started and how many times the credential file
was written (json.dump in extract_android_network_credentials). -/
structure SharerState where
  connected_devices : List (List Char)
  credentials_received : Bool
  persistCalls : Nat
  extractionsStarted : Nat
deriving Repr, DecidableEq

/-- Python set.add: no-op when the element is already present. -/
def setAdd (s : List (List Char)) (x : List Char) : List (List Char) :=
  if x ∈ s then s else s ++ [x]

/-- android_wifi_direct_sharer.py on_device_connected, lines 322-337:
when the notification carries org.bluez.Device1, add the path to
connected_devices and start extract_wifi_credentials_from_android
(synchronously); extractPersists tells whether that extraction reaches
its persist step.  There is no membership check before starting the
extraction. -/
def on_device_connected (hasDevice1 : Bool) (extractPersists : Bool)
    (s : SharerState) (path : List Char) : SharerState :=
  if hasDevice1 then
    { s with
      connected_devices := setAdd s.connected_devices path,
      extractionsStarted := s.extractionsStarted + 1,
      persistCalls := s.persistCalls + (if extractPersists then 1 else 0),
      credentials_received := s.credentials_received || extractPersists }
  else s

/-- android_wifi_direct_sharer.py on_device_disconnected, lines 339-347:
if the path is in connected_devices, remove it; nothing else. -/
def on_device_disconnected (s : SharerState) (path : List Char) : SharerState :=
  if path ∈ s.connected_devices then
    { s with connected_devices := s.connected_devices.erase path }
  else s

/-- A Bluetooth D-Bus notification, as dispatched by the GLib main loop. -/
inductive BtEvent
  | connected (path : List Char)
  | disconnected (path : List Char)
deriving Repr, DecidableEq

/-- One processed event of the dispatch trace: when it arrived and over
which interval its handler ran. -/
structure DispatchEntry where
  event : BtEvent
  arrival : Nat
  handlerStart : Nat
  handlerEnd : Nat
deriving Repr, DecidableEq

/-- The GLib main loop of android_wifi_direct_sharer.py: events are
dispatched one at a time in arrival order; the connected handler runs
the whole extraction synchronously (duration extractDur), so an event
arriving while it runs is only handled after it returns.  The input list
is (arrival time, event) in arrival order; clock is the time at which
the loop becomes free. -/
def dispatchEvents (hasDevice1 : Bool) (extractPersists : Bool)
    (extractDur : Nat) :
    List (Nat × BtEvent) → SharerState → Nat → SharerState × List DispatchEntry
  | [], s, _ => (s, [])
  | (arr, ev) :: rest, s, clock =>
    let start := max arr clock
    match ev with
    | .connected p =>
      let s' := on_device_connected hasDevice1 extractPersists s p
      let fin := start + extractDur
      let r := dispatchEvents hasDevice1 extractPersists extractDur rest s' fin
      (r.1, { event := ev, arrival := arr, handlerStart := start,
              handlerEnd := fin } :: r.2)
    | .disconnected p =>
      let s' := on_device_disconnected s p
      let r := dispatchEvents hasDevice1 extractPersists extractDur rest s' start
      (r.1, { event := ev, arrival := arr, handlerStart := start,
              handlerEnd := start } :: r.2)

/-- The initial handler state of AndroidWiFiDirectSharer.__init__. -/
def initialSharerState : SharerState :=
  { connected_devices := [], credentials_received := false,
    persistCalls := 0, extractionsStarted := 0 }

/-- The files the Network Connector touches: the credential store
/etc/wifi_credentials.json (the persisted ssid/password pair) and the
network block written into /etc/wpa_supplicant/wpa_supplicant.conf. -/
structure NetFS where
  wifi_credentials : Option (List Char × List Char)
  wpa_conf : Option (List Char × List Char)
deriving Repr, DecidableEq

/-- android_wifi_direct_sharer.py check_wifi_connection, lines 817-837:
iwconfig wlan0 (check=True: a raising command returns False), connected
iff the output contains ESSID: and not Not-Associated. -/
def check_wifi_connection (cmdOk : Bool) (output : List Char) : Bool :=
  if cmdOk then
    hasSub ("ESSID:".data) output && !(hasSub ("Not-Associated".data) output)
  else false

/-- Command outcomes for connect_to_extracted_network. -/
structure ConnectEnv where
  stop_findOk : Bool
  killallOk : Bool
  cpOk : Bool
  wpaStartOk : Bool
  iwCmdOk : Bool
  iwOut : List Char

/-- android_wifi_direct_sharer.py connect_to_extracted_network, lines
768-815: stop WiFi Direct (p2p_stop_find, killall; each check=True, a
failure returns False via the except branch), write the client
wpa_supplicant configuration for (ssid, password) (the cp to /etc), start
wpa_supplicant, sleep, then check_wifi_connection.  It never writes the
credential store. -/
def connect_to_extracted_network (env : ConnectEnv) (fs : NetFS)
    (ssid password : List Char) : Bool × NetFS :=
  if !env.stop_findOk then (false, fs)
  else if !env.killallOk then (false, fs)
  else if !env.cpOk then (false, fs)
  else
    let fs' := { fs with wpa_conf := some (ssid, password) }
    if !env.wpaStartOk then (false, fs')
    else (check_wifi_connection env.iwCmdOk env.iwOut, fs')

/-- Command outcomes for connect_to_wifi. -/
structure WifiEnv where
  cpOk : Bool
  restartOk : Bool
  iwOut : List Char

/-- auto_bluetooth_wifi_sharer.py connect_to_wifi, lines 444-493: write
the wpa_supplicant configuration (cp, check=True), restart networking
(check=True), sleep, run iwconfig (no check), and when the output shows
ESSID: without off/any, persist the credentials to the store and return
True; otherwise return False. -/
def connect_to_wifi (env : WifiEnv) (fs : NetFS)
    (ssid password : List Char) : Bool × NetFS :=
  if !env.cpOk then (false, fs)
  else
    let fs1 := { fs with wpa_conf := some (ssid, password) }
    if !env.restartOk then (false, fs1)
    else if hasSub ("ESSID:".data) env.iwOut &&
            !(hasSub ("off/any".data) env.iwOut) then
      (true, { fs1 with wifi_credentials := some (ssid, password) })
    else (false, fs1)

/-- The mutable fields of WiFiCredentialService
(auto_bluetooth_wifi_sharer.py lines 45-56) read and written by the GATT
characteristics. -/
structure WiFiCredentialService where
  wifi_ssid : List Char
  wifi_password : List Char
deriving Repr, DecidableEq

/-- auto_bluetooth_wifi_sharer.py WiFiSSIDCharacteristic.WriteValue,
lines 82-88: ssid = ''.join([chr(b) for b in value]);
self.service.wifi_ssid = ssid.  Python chr is Char.ofNat on the byte
values 0..255 a GATT write carries. -/
def WiFiSSIDCharacteristic.WriteValue (service : WiFiCredentialService)
    (value : List Nat) : WiFiCredentialService :=
  { service with wifi_ssid := value.map Char.ofNat }

/-- auto_bluetooth_wifi_sharer.py WiFiSSIDCharacteristic.ReadValue,
lines 75-80: return [ord(c) for c in self.service.wifi_ssid]. -/
def WiFiSSIDCharacteristic.ReadValue (service : WiFiCredentialService) :
    List Nat :=
  service.wifi_ssid.map Char.toNat

/-- auto_bluetooth_wifi_sharer.py WiFiPasswordCharacteristic.WriteValue,
lines 104-110. -/
def WiFiPasswordCharacteristic.WriteValue (service : WiFiCredentialService)
    (value : List Nat) : WiFiCredentialService :=
  { service with wifi_password := value.map Char.ofNat }

/-- auto_bluetooth_wifi_sharer.py WiFiPasswordCharacteristic.ReadValue,
lines 97-102. -/
def WiFiPasswordCharacteristic.ReadValue (service : WiFiCredentialService) :
    List Nat :=
  service.wifi_password.map Char.toNat

/-! Dictionary lemmas. -/

theorem dictGet_set_same (d : PyDict) (k v : List Char) :
    dictGet (dictSet d k v) k = some v := by
  simp [dictGet, dictSet, List.find?]

theorem dictGet_set_ne (d : PyDict) (k v k' : List Char) (h : (k == k') = false) :
    dictGet (dictSet d k v) k' = dictGet d k' := by
  simp [dictGet, dictSet, List.find?, h]

theorem hasKey_of_getD_ne (d : PyDict) (k dflt : List Char)
    (h : dictGetD d k dflt ≠ dflt) : hasKey d k = true := by
  unfold dictGetD hasKey at *
  cases hg : dictGet d k with
  | none => rw [hg] at h; simp at h
  | some v => simp

theorem getD_eq_default_of_not_hasKey (d : PyDict) (k dflt : List Char)
    (h : hasKey d k = false) : dictGetD d k dflt = dflt := by
  unfold dictGetD hasKey at *
  cases hg : dictGet d k with
  | none => simp
  | some v => rw [hg] at h; simp at h

theorem hasKey_isEmpty_false (d : PyDict) (k : List Char)
    (h : hasKey d k = true) : d.isEmpty = false := by
  cases d with
  | nil => simp [hasKey, dictGet] at h
  | cons a t => simp

/-- C1 counterexample: the raw status text ssid=(empty line)psk=secret is
accepted and persisted by extract_android_network_credentials although
its network-name field is empty, so acceptance is not equivalent to both
fields being non-empty and non-sentinel. -/
theorem c1_empty_ssid_accepted :
    extract_android_network_credentials (("ssid=\npsk=secret").data) = true ∧
    dictGetD (parseStatusLines (splitAll '\n' (("ssid=\npsk=secret").data)))
      (("ssid".data)) (("Unknown".data)) = [] := by
  constructor <;> rfl

/-- C1 (amended): on the status-text path
(extract_android_network_credentials) a candidate is accepted and
persisted iff both the ssid value and the psk value, with a missing key
defaulting to Unknown, differ from the sentinel Unknown; emptiness is
not checked there.  The GATT path (check_credentials) accepts iff both
fields are non-empty and differ from the sentinel. -/
theorem c1_validation (status wifi_ssid wifi_password : List Char) :
    (extract_android_network_credentials status = true ↔
      (dictGetD (parseStatusLines (splitAll '\n' status)) (("ssid".data))
          (("Unknown".data)) ≠ ("Unknown".data) ∧
       dictGetD (parseStatusLines (splitAll '\n' status)) (("psk".data))
          (("Unknown".data)) ≠ ("Unknown".data))) ∧
    (check_credentials wifi_ssid wifi_password = true ↔
      (wifi_ssid ≠ [] ∧ wifi_ssid ≠ ("Unknown".data) ∧
       wifi_password ≠ [] ∧ wifi_password ≠ ("Unknown".data))) := by
  constructor
  · simp only [extract_android_network_credentials]
    by_cases hg :
        (hasKey (parseStatusLines (splitAll '\n' status)) ("ssid".data) ||
         hasKey (parseStatusLines (splitAll '\n' status)) ("psk".data)) = true
    · simp [hg]
    · rw [if_neg hg]
      simp only [Bool.not_eq_true] at hg
      rw [Bool.or_eq_false_iff] at hg
      constructor
      · intro h; exact absurd h (by simp)
      · intro h
        exact absurd (getD_eq_default_of_not_hasKey _ _ _ hg.1) h.1
  · unfold check_credentials
    simp only [Bool.and_eq_true, decide_eq_true_eq]
    tauto

/-- C4: the status parser splits each line at the first separator (the
value may itself contain '='), ignores a line lacking the separator, and
on a repeated key the last value wins within one parse call. -/
theorem c4_line_parsing (lines : List (List Char)) (lnosep : List Char)
    (h1 : splitFirst '=' lnosep = none)
    (k v : List Char) (h2 : splitFirst '=' k = none) :
    parseStatusLines (lines ++ [lnosep]) = parseStatusLines lines ∧
    dictGet (parseStatusLines (lines ++ [k ++ '=' :: v])) (pyStrip k) =
      some (pyStrip v) := by
  have hsplit : splitFirst '=' (k ++ '=' :: v) = some (k, v) := by
    clear h1
    induction k with
    | nil => simp [splitFirst]
    | cons c k ih =>
      unfold splitFirst at h2 ⊢
      by_cases hc : c = '='
      · simp [hc] at h2
      · simp only [hc, if_false, List.cons_append] at h2 ⊢
        cases hk : splitFirst '=' k with
        | none => rw [ih hk]
        | some p => rw [hk] at h2; exact absurd h2 (by simp)
  constructor
  · unfold parseStatusLines
    rw [List.foldl_append]
    simp [h1]
  · unfold parseStatusLines
    rw [List.foldl_append]
    simp only [List.foldl_cons, List.foldl_nil, hsplit]
    exact dictGet_set_same _ _ _

/-- C4 witness: a separator-free line is ignored and a repeated key takes
the later value, the value keeping everything after the first '='. -/
theorem c4_line_parsing_witness :
    parseStatusLines [(("a=1").data), (("flags").data)] =
      parseStatusLines [(("a=1").data)] ∧
    dictGet (parseStatusLines [(("a=1").data),
        (("a").data) ++ '=' :: (("2=x").data)]) (pyStrip (("a").data)) =
      some (pyStrip (("2=x").data)) :=
  c4_line_parsing [(("a=1").data)] (("flags").data) (by decide)
    (("a").data) (("2=x").data) (by decide)

/-! GATT round-trip. -/

theorem char_toNat_ofNat_of_lt (n : Nat) (h : n < 256) :
    (Char.ofNat n).toNat = n := by
  have hv : n.isValidChar := Or.inl (by omega)
  simp [Char.ofNat, hv, Char.ofNatAux, Char.toNat, UInt32.toNat,
    BitVec.toNat_ofNatLt]

theorem map_toNat_ofNat (v : List Nat) (h : ∀ b ∈ v, b < 256) :
    (v.map Char.ofNat).map Char.toNat = v := by
  induction v with
  | nil => rfl
  | cons a t ih =>
    simp only [List.map_cons, List.cons.injEq]
    exact ⟨char_toNat_ofNat_of_lt a (h a (by simp)),
      ih (fun b hb => h b (by simp [hb]))⟩

/-- C10: for the SSID and password GATT characteristics, WriteValue
followed by ReadValue returns exactly the written byte list when every
element is a byte (0..255): the write stores the chr-decoded string and
the read re-encodes it with ord. -/
theorem c10_gatt_roundtrip (service : WiFiCredentialService) (v : List Nat)
    (h : ∀ b ∈ v, b < 256) :
    WiFiSSIDCharacteristic.ReadValue
        (WiFiSSIDCharacteristic.WriteValue service v) = v ∧
    WiFiPasswordCharacteristic.ReadValue
        (WiFiPasswordCharacteristic.WriteValue service v) = v := by
  refine ⟨?_, ?_⟩ <;>
    simp only [WiFiSSIDCharacteristic.ReadValue,
      WiFiSSIDCharacteristic.WriteValue,
      WiFiPasswordCharacteristic.ReadValue,
      WiFiPasswordCharacteristic.WriteValue] <;>
    exact map_toNat_ofNat v h

/-- C10 witness: the round-trip on the concrete byte list for HomeNet. -/
theorem c10_gatt_roundtrip_witness :
    WiFiSSIDCharacteristic.ReadValue
        (WiFiSSIDCharacteristic.WriteValue
          { wifi_ssid := ("Unknown".data), wifi_password := ("Unknown".data) }
          [72, 111, 109, 101, 78, 101, 116]) =
      [72, 111, 109, 101, 78, 101, 116] ∧
    WiFiPasswordCharacteristic.ReadValue
        (WiFiPasswordCharacteristic.WriteValue
          { wifi_ssid := ("Unknown".data), wifi_password := ("Unknown".data) }
          [72, 111, 109, 101, 78, 101, 116]) =
      [72, 111, 109, 101, 78, 101, 116] :=
  c10_gatt_roundtrip _ _ (by decide)

/-! Connect / disconnect handlers. -/

theorem mem_setAdd_self (s : List (List Char)) (x : List Char) :
    x ∈ setAdd s x := by
  unfold setAdd
  by_cases h : x ∈ s
  · simp [h]
  · simp [h]

theorem setAdd_idem (s : List (List Char)) (x : List Char) :
    setAdd (setAdd s x) x = setAdd s x := by
  rw [setAdd]
  exact if_pos (mem_setAdd_self s x)

/-- C8 counterexample: delivering a second InterfacesAdded notification
for a path that already has an active session is not ignored: the state
after handling the duplicate differs from the state before it (a second
credential extraction is started), so the handler is not idempotent. -/
theorem c8_duplicate_not_ignored :
    on_device_connected true false
        (on_device_connected true false initialSharerState (("dev0").data))
        (("dev0").data) ≠
      on_device_connected true false initialSharerState (("dev0").data) := by
  decide

/-- C8 (amended): a duplicate connect notification leaves the
connected-devices set unchanged (set add is idempotent) but starts a
second credential-extraction session: on_device_connected has no
membership check before invoking the extraction. -/
theorem c8_duplicate_connect (extractPersists : Bool) (s : SharerState)
    (path : List Char) :
    (on_device_connected true extractPersists
        (on_device_connected true extractPersists s path)
        path).connected_devices =
      (on_device_connected true extractPersists s path).connected_devices ∧
    (on_device_connected true extractPersists
        (on_device_connected true extractPersists s path)
        path).extractionsStarted =
      (on_device_connected true extractPersists s path).extractionsStarted
        + 1 := by
  constructor
  · simp [on_device_connected, setAdd_idem]
  · simp [on_device_connected]

/-- C6 counterexample: with the extraction running synchronously for 10
seconds inside the connect handler, a PeerDisconnected notification
arriving at time 1 (after the session started at 0 and before the
strategy completes at 10) is only processed afterwards; the credential is
persisted (persistCalls = 1) and the only effect of the disconnect is
removing the path from the connected set -- nothing is cancelled. -/
theorem c6_disconnect_does_not_cancel :
    (dispatchEvents true true 10
        [(0, BtEvent.connected (("dev0").data)),
         (1, BtEvent.disconnected (("dev0").data))]
        initialSharerState 0).1.persistCalls = 1 ∧
    (dispatchEvents true true 10
        [(0, BtEvent.connected (("dev0").data)),
         (1, BtEvent.disconnected (("dev0").data))]
        initialSharerState 0).2 =
      [{ event := BtEvent.connected (("dev0").data), arrival := 0,
         handlerStart := 0, handlerEnd := 10 },
       { event := BtEvent.disconnected (("dev0").data), arrival := 1,
         handlerStart := 10, handlerEnd := 10 }] ∧
    1 < 10 := by
  refine ⟨?_, ?_, by decide⟩ <;> rfl

/-- C6 (amended): on_device_disconnected only removes the path from the
connected-devices set; it does not change the persisted-credential flag,
the persist count, or the extraction count, and the code has no
Cancelled state or abort mechanism for an in-flight strategy. -/
theorem c6_disconnect_only_removes (s : SharerState) (path : List Char) :
    (on_device_disconnected s path).connected_devices =
      s.connected_devices.erase path ∧
    (on_device_disconnected s path).credentials_received =
      s.credentials_received ∧
    (on_device_disconnected s path).persistCalls = s.persistCalls ∧
    (on_device_disconnected s path).extractionsStarted =
      s.extractionsStarted := by
  unfold on_device_disconnected
  by_cases h : path ∈ s.connected_devices
  · simp [h]
  · simp [h, List.erase_of_not_mem h]

/-! Network Connector frame property. -/

/-- C7: applying a credential never mutates the credential store on the
WiFi-Direct path (connect_to_extracted_network writes only the
wpa_supplicant configuration), and on the GATT path (connect_to_wifi) a
failed apply leaves the store unchanged; so a previously persisted
credential remains persisted after a failed Apply. -/
theorem c7_failed_apply_preserves_store (cenv : ConnectEnv) (wenv : WifiEnv)
    (fs : NetFS) (ssid password : List Char) :
    (connect_to_extracted_network cenv fs ssid password).2.wifi_credentials =
      fs.wifi_credentials ∧
    ((connect_to_wifi wenv fs ssid password).1 = false →
      (connect_to_wifi wenv fs ssid password).2.wifi_credentials =
        fs.wifi_credentials) := by
  constructor
  · unfold connect_to_extracted_network
    split_ifs <;> rfl
  · unfold connect_to_wifi
    split_ifs with h1 h2 h3
    · intro _; rfl
    · intro _; rfl
    · intro hfalse; exact absurd hfalse (by simp)
    · intro _; rfl

/-- C7 witness: a concrete failed apply (association never verified)
leaves a persisted HomeNet credential in the store. -/
theorem c7_failed_apply_preserves_store_witness :
    (connect_to_wifi { cpOk := true, restartOk := true, iwOut := [] }
        { wifi_credentials := some ((("HomeNet").data), (("s3cr3t").data)),
          wpa_conf := none }
        (("HomeNet").data) (("s3cr3t").data)).1 = false ∧
    (connect_to_wifi { cpOk := true, restartOk := true, iwOut := [] }
        { wifi_credentials := some ((("HomeNet").data), (("s3cr3t").data)),
          wpa_conf := none }
        (("HomeNet").data) (("s3cr3t").data)).2.wifi_credentials =
      some ((("HomeNet").data), (("s3cr3t").data)) :=
  ⟨by decide,
    (c7_failed_apply_preserves_store
      { stop_findOk := true, killallOk := true, cpOk := true,
        wpaStartOk := true, iwCmdOk := true, iwOut := [] }
      { cpOk := true, restartOk := true, iwOut := [] }
      { wifi_credentials := some ((("HomeNet").data), (("s3cr3t").data)),
        wpa_conf := none }
      (("HomeNet").data) (("s3cr3t").data)).2 (by decide)⟩

/-! The bounded 45-iteration connection poll. -/

theorem pollAux_eq_none (statusAt : Nat → List Char) (start fuel : Nat)
    (h : ∀ k, start ≤ k → k < start + fuel →
      check_android_wifi_direct_connection (statusAt k) = false) :
    pollAux statusAt start fuel = none := by
  induction fuel generalizing start with
  | zero => rfl
  | succ fuel ih =>
    rw [pollAux]
    rw [if_neg (by simp [h start (Nat.le_refl start) (by omega)])]
    exact ih (start + 1) (fun k hk1 hk2 => h k (by omega) (by omega))

theorem pollAux_eq_first (statusAt : Nat → List Char) (start fuel i : Nat)
    (h1 : start ≤ i) (h2 : i < start + fuel)
    (h3 : check_android_wifi_direct_connection (statusAt i) = true)
    (h4 : ∀ k, start ≤ k → k < i →
      check_android_wifi_direct_connection (statusAt k) = false) :
    pollAux statusAt start fuel = some i := by
  induction fuel generalizing start with
  | zero => omega
  | succ fuel ih =>
    rw [pollAux]
    by_cases hs : start = i
    · rw [if_pos (hs ▸ h3), hs]
    · rw [if_neg (by simp [h4 start (Nat.le_refl start) (by omega)])]
      exact ih (start + 1) (by omega) (by omega)
        (fun k hk1 hk2 => h4 k (by omega) hk2)

/-- C9: after an accepted connect request the engine polls connection
status once per second for at most 45 iterations; the first poll that
reports an established connection stops the loop and the attempt returns
the result of credential extraction, and when no poll within the bound
reports an established connection the attempt returns failure. -/
theorem c9_poll_bound (statusAt : Nat → List Char) (extractOk : Bool)
    (i : Nat) (hi : i < 45)
    (hsucc : check_android_wifi_direct_connection (statusAt i) = true)
    (hbefore : ∀ k, k < i →
      check_android_wifi_direct_connection (statusAt k) = false) :
    (pollConnection statusAt = some i ∧
     connect_to_android_via_wifi_direct true statusAt extractOk = extractOk) ∧
    (∀ s2 : Nat → List Char,
      (∀ k, k < 45 → check_android_wifi_direct_connection (s2 k) = false) →
      pollConnection s2 = none ∧
      connect_to_android_via_wifi_direct true s2 extractOk = false) := by
  have hp : pollConnection statusAt = some i :=
    pollAux_eq_first statusAt 0 45 i (Nat.zero_le i) (by omega) hsucc
      (fun k hk1 hk2 => hbefore k hk2)
  refine ⟨⟨hp, ?_⟩, ?_⟩
  · unfold connect_to_android_via_wifi_direct
    rw [if_pos rfl, hp]
  · intro s2 hfail
    have hn : pollConnection s2 = none :=
      pollAux_eq_none s2 0 45 (fun k hk1 hk2 => hfail k (by omega))
    refine ⟨hn, ?_⟩
    unfold connect_to_android_via_wifi_direct
    rw [if_pos rfl, hn]

/-- C9 witness: a run whose status becomes established at the fourth
poll returns the extraction result, and a run that never establishes
within 45 polls fails. -/
theorem c9_poll_bound_witness :
    (pollConnection
        (fun i => if i == 3 then (("p2p_go_mode=1").data) else []) = some 3 ∧
     connect_to_android_via_wifi_direct true
        (fun i => if i == 3 then (("p2p_go_mode=1").data) else []) true =
       true) ∧
    (pollConnection (fun _ => []) = none ∧
     connect_to_android_via_wifi_direct true (fun _ => []) true = false) := by
  have h := c9_poll_bound
    (fun i => if i == 3 then (("p2p_go_mode=1").data) else []) true 3
    (by omega) (by decide)
    (by intro k hk; interval_cases k <;> decide)
  exact ⟨h.1, h.2 (fun _ => []) (fun k _ => rfl)⟩

/-! Global deadline and the per-peer connect loop. -/

theorem tryPeers_started_le (env : ExtractEnv) (idxs : List Nat)
    (elapsed i t : Nat)
    (h : (i, t) ∈ (tryPeers env idxs elapsed).2.1) : t ≤ 90 := by
  induction idxs generalizing elapsed with
  | nil => simp [tryPeers] at h
  | cons j rest ih =>
    rw [tryPeers] at h
    by_cases hd : 90 < elapsed
    · rw [if_pos hd] at h; simp at h
    · rw [if_neg hd] at h
      by_cases hk : env.attemptOk j = true
      · simp only [hk, if_true, List.mem_singleton, Prod.mk.injEq] at h
        omega
      · simp only [hk, if_false, Bool.false_eq_true, List.mem_cons,
          Prod.mk.injEq] at h
        rcases h with ⟨_, ht⟩ | h2
        · omega
        · exact ih (elapsed + env.attemptDur j) h2

/-- C2 counterexample: in a run whose first per-peer attempt fails after
46 seconds, the deadline check before the second attempt passes (elapsed
61 is not past 90) and the second attempt is started even though its
bounded cost (at least the 45 polling seconds) exceeds the remaining
budget: 61 + 45 > 90.  A strategy whose bounded cost would exceed the
deadline is therefore started. -/
theorem c2_overbudget_attempt_started :
    (1, 61) ∈ (extract_wifi_credentials_from_android
        { findOk := true, findDur := 0, peersCmdOk := true,
          peersNonempty := true, numPeers := 2,
          attemptDur := fun _ => 46, attemptOk := fun _ => false,
          methodsOk := false }).2 ∧
    90 < 61 + 45 := by
  constructor
  · have : (extract_wifi_credentials_from_android
        { findOk := true, findDur := 0, peersCmdOk := true,
          peersNonempty := true, numPeers := 2,
          attemptDur := fun _ => 46, attemptOk := fun _ => false,
          methodsOk := false }).2 = [(0, 15), (1, 61)] := rfl
    rw [this]; simp
  · omega

/-- C2 (amended): before each per-peer connect attempt (and again before
the secondary-methods step) the coordinator checks only whether the
90-second deadline has already passed, returning failure without
starting the attempt when elapsed > 90; consequently every attempt it
does start begins at an elapsed time of at most 90 seconds, but no
allowance is made for the attempt's own bounded cost. -/
theorem c2_deadline_already_passed_check (env : ExtractEnv) (i t : Nat)
    (h : (i, t) ∈ (extract_wifi_credentials_from_android env).2) : t ≤ 90 := by
  simp only [extract_wifi_credentials_from_android] at h
  by_cases h1 : (!env.findOk) = true
  · rw [if_pos h1] at h; simp at h
  · rw [if_neg h1] at h
    by_cases h2 : 90 < env.findDur + 15
    · rw [if_pos h2] at h; simp at h
    · rw [if_neg h2] at h
      by_cases h3 : (!env.peersCmdOk) = true
      · rw [if_pos h3] at h; simp at h
      · rw [if_neg h3] at h
        by_cases h4 : env.peersNonempty = true
        · rw [if_pos h4] at h
          have hmem : (i, t) ∈
              (tryPeers env (List.range env.numPeers)
                (env.findDur + 15)).2.1 := by
            rcases hm : (tryPeers env (List.range env.numPeers)
                (env.findDur + 15)).1 with _ | r
            · rw [hm] at h
              by_cases h5 : 90 <
                  (tryPeers env (List.range env.numPeers)
                    (env.findDur + 15)).2.2
              · rw [if_pos h5] at h; exact h
              · rw [if_neg h5] at h; exact h
            · rw [hm] at h; exact h
          exact tryPeers_started_le env _ _ i t hmem
        · rw [if_neg h4] at h
          by_cases h5 : 90 < env.findDur + 15
          · rw [if_pos h5] at h; simp at h
          · rw [if_neg h5] at h; simp at h

/-- C2 amended-claim witness: in the counterexample run, the first
attempt starts at 15 elapsed seconds, within the 90-second deadline. -/
theorem c2_deadline_already_passed_check_witness :
    (0, 15) ∈ (extract_wifi_credentials_from_android
        { findOk := true, findDur := 0, peersCmdOk := true,
          peersNonempty := true, numPeers := 2,
          attemptDur := fun _ => 46, attemptOk := fun _ => false,
          methodsOk := false }).2 ∧
    15 ≤ 90 :=
  ⟨by rw [show (extract_wifi_credentials_from_android
        { findOk := true, findDur := 0, peersCmdOk := true,
          peersNonempty := true, numPeers := 2,
          attemptDur := fun _ => 46, attemptOk := fun _ => false,
          methodsOk := false }).2 = [(0, 15), (1, 61)] from rfl]; simp,
   c2_deadline_already_passed_check
     { findOk := true, findDur := 0, peersCmdOk := true,
       peersNonempty := true, numPeers := 2,
       attemptDur := fun _ => 46, attemptOk := fun _ => false,
       methodsOk := false } 0 15
     (by rw [show (extract_wifi_credentials_from_android
        { findOk := true, findDur := 0, peersCmdOk := true,
          peersNonempty := true, numPeers := 2,
          attemptDur := fun _ => 46, attemptOk := fun _ => false,
          methodsOk := false }).2 = [(0, 15), (1, 61)] from rfl]; simp)⟩

theorem tryPeers_first_success (env : ExtractEnv) (la : List Nat) (p : Nat)
    (lb : List Nat) (e0 : Nat)
    (hfail : ∀ q ∈ la, env.attemptOk q = false)
    (hp : env.attemptOk p = true)
    (hbudget : e0 + (la.map env.attemptDur).sum ≤ 90) :
    (tryPeers env (la ++ p :: lb) e0).1 = some true ∧
    ((tryPeers env (la ++ p :: lb) e0).2.1).map Prod.fst = la ++ [p] := by
  induction la generalizing e0 with
  | nil =>
    simp only [List.nil_append]
    rw [tryPeers, if_neg (by omega), if_pos hp]
    simp
  | cons q la ih =>
    have hq : env.attemptOk q = false := hfail q (by simp)
    have hsum : e0 + (env.attemptDur q +
        (la.map env.attemptDur).sum) ≤ 90 := by
      simpa [List.map_cons, List.sum_cons] using hbudget
    rw [List.cons_append, tryPeers, if_neg (by omega),
      if_neg (by simp [hq])]
    have ih' := ih (e0 + env.attemptDur q)
      (fun x hx => hfail x (by simp [hx])) (by omega)
    exact ⟨ih'.1, by simp only [List.map_cons, ih'.2, List.cons_append]⟩

/-- C3 counterexample: peer 0 is the first peer for which a connection
is established (its very first poll reports an established state), but
its credential extraction fails, so its attempt returns False and the
loop goes on to attempt the remaining peer 1 and returns using it: the
loop does not stop at the first peer for which a connection is
established. -/
theorem c3_established_peer_not_final :
    pollConnection (c3StatusAt 0) = some 0 ∧
    c3ExtractOk 0 = false ∧
    connect_to_android_via_wifi_direct true (c3StatusAt 0) (c3ExtractOk 0) =
      false ∧
    ((extract_wifi_credentials_from_android c3Env).2).map Prod.fst =
      [0, 1] ∧
    (extract_wifi_credentials_from_android c3Env).1 = true := by
  refine ⟨rfl, rfl, rfl, ?_, rfl⟩
  rfl

/-- C3 (amended): the connect loop tries discovered peers strictly in
discovery-list order, and the peer that stops the loop is the first one
whose whole attempt succeeds: its connect command is accepted, its
connection is established within the polling bound, and credential
extraction over the established connection succeeds.  A peer whose
attempt fails in any of these ways -- a rejected connect command, no
established connection within the bound, or an established connection
whose extraction fails -- is not retried, and the loop moves on to the
next peer; with every peer of la failing so and the loop staying within
the deadline through those attempts, the loop returns success having
attempted exactly la ++ [p] in order, never touching lb. -/
theorem c3_first_full_success_wins (env : ExtractEnv)
    (connectCmdOk : Nat → Bool) (statusAt : Nat → Nat → List Char)
    (extractOk : Nat → Bool)
    (hattempt : ∀ i, env.attemptOk i =
      connect_to_android_via_wifi_direct (connectCmdOk i) (statusAt i)
        (extractOk i))
    (la : List Nat) (p : Nat) (lb : List Nat) (e0 j : Nat)
    (hfail : ∀ q ∈ la,
      connect_to_android_via_wifi_direct (connectCmdOk q) (statusAt q)
        (extractOk q) = false)
    (hcmd : connectCmdOk p = true)
    (hpoll : pollConnection (statusAt p) = some j)
    (hext : extractOk p = true)
    (hbudget : e0 + (la.map env.attemptDur).sum ≤ 90) :
    (tryPeers env (la ++ p :: lb) e0).1 = some true ∧
    ((tryPeers env (la ++ p :: lb) e0).2.1).map Prod.fst = la ++ [p] := by
  have hp : env.attemptOk p = true := by
    rw [hattempt p]
    unfold connect_to_android_via_wifi_direct
    rw [if_pos hcmd, hpoll]
    exact hext
  exact tryPeers_first_success env la p lb e0
    (fun q hq => (hattempt q).trans (hfail q hq)) hp hbudget

/-- C3 amended-claim witness: in the c3Env run peer 0's attempt fails
(established connection, failed extraction) and peer 1's whole attempt
succeeds, so the loop succeeds having attempted exactly [0, 1]. -/
theorem c3_first_full_success_wins_witness :
    (tryPeers c3Env ([0] ++ 1 :: []) 15).1 = some true ∧
    ((tryPeers c3Env ([0] ++ 1 :: []) 15).2.1).map Prod.fst = [0] ++ [1] :=
  c3_first_full_success_wins c3Env (fun _ => true) c3StatusAt c3ExtractOk
    (fun _ => rfl) [0] 1 [] 15 0 (by decide) rfl rfl rfl (by decide)

/-! Peer-list record delimiting. -/

theorem flushDevices_of_hasKey (devices : List PyDict) (c : PyDict)
    (h : hasKey c ("address".data) = true) :
    flushDevices devices c = devices ++ [c] := by
  unfold flushDevices
  rw [if_pos (by simp [h, hasKey_isEmpty_false c _ h])]

theorem step_marker (d : List PyDict) (c : PyDict) (line0 : List Char)
    (h0 : List.isPrefixOf ("dev_addr=".data) (pyStrip line0) = true) :
    parse_android_devices_step (d, c) line0 =
      (flushDevices d c,
       [(("address".data), splitEqVal (pyStrip line0))]) := by
  unfold parse_android_devices_step
  rw [if_pos h0]

theorem step_shift (d : List PyDict) (c : PyDict) (l : List Char) :
    parse_android_devices_step (d, c) l =
      (d ++ (parse_android_devices_step ([], c) l).1,
       (parse_android_devices_step ([], c) l).2) := by
  unfold parse_android_devices_step flushDevices
  simp only []
  split_ifs <;> simp

theorem foldl_step_shift (ls : List (List Char)) (d : List PyDict)
    (c : PyDict) :
    ls.foldl parse_android_devices_step (d, c) =
      (d ++ (ls.foldl parse_android_devices_step ([], c)).1,
       (ls.foldl parse_android_devices_step ([], c)).2) := by
  induction ls generalizing d c with
  | nil => simp
  | cons l ls ih =>
    simp only [List.foldl_cons]
    rw [step_shift d c l, ih]
    conv_rhs =>
      rw [show parse_android_devices_step ([], c) l =
            ((parse_android_devices_step ([], c) l).1,
             (parse_android_devices_step ([], c) l).2) from rfl,
        ih]
    simp [List.append_assoc]

theorem step_nonmarker_fst (d : List PyDict) (c : PyDict) (l : List Char)
    (h : List.isPrefixOf ("dev_addr=".data) (pyStrip l) = false) :
    (parse_android_devices_step (d, c) l).1 = d := by
  unfold parse_android_devices_step
  rw [if_neg (by simp [h])]
  split_ifs <;> rfl

theorem step_nonmarker_addr (d : List PyDict) (c : PyDict) (l : List Char)
    (h : List.isPrefixOf ("dev_addr=".data) (pyStrip l) = false)
    (hc : hasKey c ("address".data) = true) :
    hasKey (parse_android_devices_step (d, c) l).2 ("address".data) = true := by
  unfold parse_android_devices_step
  rw [if_neg (by simp [h])]
  split_ifs <;>
    first
      | exact hc
      | (show hasKey (dictSet c _ _) ("address".data) = true
         unfold hasKey
         rw [dictGet_set_ne _ _ _ _ (by decide)]
         exact hc)

theorem foldl_step_nonmarker (ls : List (List Char)) (c : PyDict)
    (h : ∀ l ∈ ls, List.isPrefixOf ("dev_addr=".data) (pyStrip l) = false)
    (hc : hasKey c ("address".data) = true) :
    (ls.foldl parse_android_devices_step ([], c)).1 = [] ∧
    hasKey ((ls.foldl parse_android_devices_step ([], c)).2)
      ("address".data) = true := by
  induction ls generalizing c with
  | nil => exact ⟨rfl, hc⟩
  | cons l ls ih =>
    have hl := h l (by simp)
    simp only [List.foldl_cons]
    rw [show parse_android_devices_step ([], c) l =
          ([], (parse_android_devices_step ([], c) l).2) from
        Prod.ext (step_nonmarker_fst [] c l hl) rfl]
    exact ih (parse_android_devices_step ([], c) l).2
      (fun x hx => h x (by simp [hx]))
      (step_nonmarker_addr [] c l hl hc)

/-- C5: the peer-list parser delimits device records by dev_addr= marker
lines.  For any prefix ls1, a marker line line0, and a tail ls2 free of
marker lines: parsing ls1 ++ line0 :: ls2 yields exactly the records of
ls1 (the marker closes the record in progress at line0, under the same
guard the final flush of a parse of ls1 alone uses) followed by the one
record opened by line0 and extended by ls2, flushed at end of input; and
parse_android_devices is this line-level parse of the stripped,
newline-split peer text. -/
theorem c5_record_delimiting (ls1 ls2 : List (List Char)) (line0 : List Char)
    (h0 : List.isPrefixOf ("dev_addr=".data) (pyStrip line0) = true)
    (h2 : ∀ l ∈ ls2, List.isPrefixOf ("dev_addr=".data) (pyStrip l) = false) :
    parse_android_devices_lines (ls1 ++ line0 :: ls2) =
      parse_android_devices_lines ls1 ++
        [(ls2.foldl parse_android_devices_step
            ([], [(("address".data), splitEqVal (pyStrip line0))])).2] ∧
    ∀ peers_output : List Char,
      parse_android_devices peers_output =
        parse_android_devices_lines (splitAll '\n' (pyStrip peers_output)) := by
  refine ⟨?_, fun _ => rfl⟩
  have haddr : hasKey [(("address".data), splitEqVal (pyStrip line0))]
      ("address".data) = true := by
    simp [hasKey, dictGet, List.find?]
  obtain ⟨hfst, hkey⟩ := foldl_step_nonmarker ls2
    [(("address".data), splitEqVal (pyStrip line0))] h2 haddr
  simp only [parse_android_devices_lines]
  rw [List.foldl_append]
  rw [show (ls1.foldl parse_android_devices_step ([], [])) =
        ((ls1.foldl parse_android_devices_step ([], [])).1,
         (ls1.foldl parse_android_devices_step ([], [])).2) from rfl]
  rw [List.foldl_cons, step_marker _ _ line0 h0, foldl_step_shift, hfst]
  rw [flushDevices_of_hasKey _ _ hkey]
  simp

/-- C5 witness: two dev_addr records, the second extended by a dev_name
line and flushed at end of input. -/
theorem c5_record_delimiting_witness :
    parse_android_devices_lines
        ([(("dev_addr=aa:bb").data)] ++
          (("dev_addr=cc:dd").data) :: [(("dev_name=Phone").data)]) =
      parse_android_devices_lines [(("dev_addr=aa:bb").data)] ++
        [([(("dev_name=Phone").data)].foldl parse_android_devices_step
            ([], [(("address".data),
                   splitEqVal (pyStrip (("dev_addr=cc:dd").data)))])).2] ∧
    ∀ peers_output : List Char,
      parse_android_devices peers_output =
        parse_android_devices_lines (splitAll '\n' (pyStrip peers_output)) :=
  c5_record_delimiting [(("dev_addr=aa:bb").data)]
    [(("dev_name=Phone").data)] (("dev_addr=cc:dd").data)
    (by decide) (by decide)

end RpiBt
